import Mathlib

/-!
Verification development for the Chain-of-Knowledge pipeline.

The Python sources are shallowly embedded: strings are Lean `String`s
(manipulated through their `List Char` data so that all operations reduce in
the kernel), Python floats are modelled as exact rationals `ℚ`, Python dicts
returned by the pipeline are association lists `List (String × PyVal)`, and
the external collaborators (the LLM provider, the knowledge-source HTTP
backends, and `difflib.SequenceMatcher.ratio`) are oracle parameters.
Rational arithmetic inside executable definitions is written with `mkRat`
(`qAdd`, `qMul`, ...) because those reduce in the kernel; lemmas below prove
them equal to the ordinary field operations on `ℚ`.
-/

namespace CoK

/-! ### Python-flavoured string primitives -/

/-- The double-quote character. -/
def dquoteChar : Char := Char.ofNat 34

/-- The single-quote character. -/
def squoteChar : Char := Char.ofNat 39

/-- Python's whitespace class for `str.strip` / `str.split` / regex `\s`. -/
def pyWs (c : Char) : Bool :=
  c = ' ' || c = '\t' || c = '\n' || c = '\r' || c = '\x0b' || c = '\x0c'

/-- `str.lower` (ASCII behaviour). -/
def pyLower (s : String) : String := ⟨s.data.map Char.toLower⟩

/-- `str.strip()` on character lists. -/
def listStrip (cs : List Char) : List Char :=
  ((cs.dropWhile (pyWs ·)).reverse.dropWhile (pyWs ·)).reverse

/-- `str.strip()`. -/
def pyStrip (s : String) : String := ⟨listStrip s.data⟩

/-- `s[:n]` slicing (by code points). -/
def strTake (s : String) (n : Nat) : String := ⟨s.data.take n⟩

/-- Substring test on character lists (Python's `in` on strings). -/
def containsSubL (needle : List Char) : List Char → Bool
  | [] => needle.isPrefixOf []
  | c :: t => needle.isPrefixOf (c :: t) || containsSubL needle t

/-- Python `needle in hay` for strings. -/
def containsSub (needle hay : String) : Bool := containsSubL needle.data hay.data

/-- `List.span` with controlled unfolding. -/
def spanP (p : Char → Bool) : List Char → (List Char × List Char)
  | [] => ([], [])
  | c :: cs => if p c then ((spanP p cs).1.cons c, (spanP p cs).2) else ([], c :: cs)

/-- Python `str.split()` with no argument: split on whitespace runs,
dropping empty pieces. -/
def pySplitWsAux : List Char → List Char → List String
  | acc, [] => if acc.isEmpty then [] else [⟨acc.reverse⟩]
  | acc, c :: cs =>
    if pyWs c then
      if acc.isEmpty then pySplitWsAux [] cs
      else ⟨acc.reverse⟩ :: pySplitWsAux [] cs
    else pySplitWsAux (c :: acc) cs

/-- Python `str.split()` (whitespace form). -/
def pySplitWs (s : String) : List String := pySplitWsAux [] s.data

/-- One step for `str.split(sep)`: if `sep` is a prefix, return the rest. -/
def dropLit (lit : List Char) (cs : List Char) : Option (List Char) :=
  if lit.isPrefixOf cs then some (cs.drop lit.length) else none

/-- Case-insensitive literal match: drop `lit` (given lowercase) from the
head of `cs`, comparing lowercased characters. -/
def dropCiLit : List Char → List Char → Option (List Char)
  | [], cs => some cs
  | _ :: _, [] => none
  | l :: ls, c :: cs => if c.toLower = l.toLower then dropCiLit ls cs else none

/-- Python `str.split(sep)` on character lists (fuel-bounded scan; `fuel`
at least the input length suffices because `sep` is nonempty). -/
def pySplitOnAux (sep : List Char) : Nat → List Char → List Char → List (List Char)
  | 0, acc, rest => [acc.reverse ++ rest]
  | _ + 1, acc, [] => [acc.reverse]
  | fuel + 1, acc, c :: cs =>
    match dropLit sep (c :: cs) with
    | some rest => acc.reverse :: pySplitOnAux sep fuel [] rest
    | none => pySplitOnAux sep fuel (c :: acc) cs

/-- Python `str.split(sep)` for a nonempty separator. -/
def pySplitOn (sep : String) (s : String) : List String :=
  (pySplitOnAux sep.data s.data.length [] s.data).map (fun cs => ⟨cs⟩)

/-- `str.lstrip(':')`. -/
def lstripColon (cs : List Char) : List Char := cs.dropWhile (· = ':')

/-- `re.sub(pattern, '', s)`: delete every non-overlapping occurrence,
scanning left to right.  `try?` must consume at least one character when it
fires; `fuel` at least the input length suffices. -/
def subAllAux (try? : List Char → Option (List Char)) :
    Nat → List Char → List Char
  | 0, cs => cs
  | _ + 1, [] => []
  | fuel + 1, c :: cs =>
    match try? (c :: cs) with
    | some rest => subAllAux try? fuel rest
    | none => c :: subAllAux try? fuel cs

/-- `re.sub(pattern, '', s)` driver. -/
def subAll (try? : List Char → Option (List Char)) (cs : List Char) : List Char :=
  subAllAux try? cs.length cs

/-- Matcher for regex `lit[,\s]+` (case-insensitive `lit`). -/
def matchLitCommaWs (lit : List Char) (cs : List Char) : Option (List Char) :=
  match dropCiLit lit cs with
  | none => none
  | some rest =>
    match spanP (fun c => c = ',' || pyWs c) rest with
    | ([], _) => none
    | (_ :: _, rest2) => some rest2

/-- Matcher for regex `lit[^,]*,\s*` (case-insensitive `lit`). -/
def matchLitToComma (lit : List Char) (cs : List Char) : Option (List Char) :=
  match dropCiLit lit cs with
  | none => none
  | some rest =>
    match (spanP (fun c => !(c = ',')) rest).2 with
    | ',' :: rest2 => some (spanP (pyWs ·) rest2).2
    | _ => none

/-- Matcher for regex `the question[^.]*\.?\s*` (case-insensitive). -/
def matchTheQuestion (cs : List Char) : Option (List Char) :=
  match dropCiLit "the question".data cs with
  | none => none
  | some rest =>
    let rest2 := (spanP (fun c => !(c = '.')) rest).2
    let rest3 := match rest2 with
      | '.' :: r => r
      | r => r
    some (spanP (pyWs ·) rest3).2

/-- Matcher for regex `"[^"]*"\s*`. -/
def matchQuoted (cs : List Char) : Option (List Char) :=
  match cs with
  | c :: rest =>
    if c = dquoteChar then
      match (spanP (fun c' => !(c' = dquoteChar)) rest).2 with
      | c' :: rest2 =>
        if c' = dquoteChar then some (spanP (pyWs ·) rest2).2 else none
      | [] => none
    else none
  | [] => none

/-- `str.strip('"\'')`: strip double and single quotes from both ends. -/
def stripQuotes (cs : List Char) : List Char :=
  let isQ : Char → Bool := fun c => c = dquoteChar || c = squoteChar
  ((cs.dropWhile isQ).reverse.dropWhile isQ).reverse

/-- Digits of a decimal literal, as a natural number. -/
def natOfDigits : List Char → Nat :=
  List.foldl (fun acc c => 10 * acc + (c.toNat - '0'.toNat)) 0

/-! ### Rational arithmetic that reduces in the kernel -/

/-- Addition on `ℚ` via `mkRat` (kernel-reducible; equals `+`, see
`qAdd_eq`). -/
def qAdd (a b : ℚ) : ℚ := mkRat (a.num * b.den + b.num * a.den) (a.den * b.den)

/-- Multiplication on `ℚ` via `mkRat` (kernel-reducible; equals `*`, see
`qMul_eq`). -/
def qMul (a b : ℚ) : ℚ := mkRat (a.num * b.num) (a.den * b.den)

/-- Python `sum` over a list of rationals. -/
def qSum : List ℚ → ℚ
  | [] => mkRat 0 1
  | x :: xs => qAdd x (qSum xs)

/-! ### RelevanceScorer (src/knowledge/relevance_scorer.py)

`difflib.SequenceMatcher(None, a, b).ratio()` is Python standard library,
external to this repository; it is modelled as an oracle parameter
`ratio : String → String → ℚ`. -/

/-- One scored retrieval result: `{'content': ..., 'score': ..., 'source': ...}`. -/
structure ScoredItem where
  content : String
  score : ℚ
  source : String
deriving DecidableEq, Repr

/-- `RelevanceScorer._calculate_score`.  `queryWords` is the deduplicated
word set of the lowercased query, as computed by `score_relevance`. -/
def calcScore (ratio : String → String → ℚ) (query : String)
    (queryWords : List String) (knowledge : String) : ℚ :=
  if knowledge = "" ∨ (pyStrip knowledge).length = 0 then mkRat 0 1
  else
    let queryLower := pyLower query
    let knowledgeLower := pyLower knowledge
    let knowledgeWords := (pySplitWs knowledgeLower).dedup
    let scores₁ : List ℚ :=
      if queryWords.isEmpty then []
      else [qMul (mkRat ((queryWords.filter (fun w => w ∈ knowledgeWords)).length)
                        queryWords.length)
                 (mkRat 4 10)]
    let scores₂ : List ℚ :=
      if containsSub queryLower knowledgeLower then scores₁ ++ [mkRat 3 10]
      else if queryWords.any (fun w => 3 < w.length && containsSub w knowledgeLower) then
        scores₁ ++ [mkRat 15 100]
      else scores₁
    let similarity := ratio queryLower (strTake knowledgeLower 500)
    let scores₃ := scores₂ ++ [qMul similarity (mkRat 3 10)]
    min 1 (max 0 (qSum scores₃))

/-- Descending-by-score order used by `scored_items.sort(key=..., reverse=True)`. -/
def scoreGe (a b : ScoredItem) : Prop := b.score ≤ a.score

instance : DecidableRel scoreGe := fun a b => inferInstanceAs (Decidable (b.score ≤ a.score))

/-- `RelevanceScorer.score_relevance`: score every item, then stable-sort by
score, highest first (Python's stable sort is modelled by insertion sort,
which produces the same list). -/
def scoreRelevance (ratio : String → String → ℚ) (query : String)
    (knowledgeItems : List String) : List ScoredItem :=
  let queryLower := pyLower query
  let queryWords := (pySplitWs queryLower).dedup
  let scored := knowledgeItems.map
    (fun item => ScoredItem.mk item (calcScore ratio query queryWords item) "unknown")
  scored.insertionSort scoreGe

/-- `RelevanceScorer.filter_by_threshold`. -/
def filterByThreshold (scoredItems : List ScoredItem) (threshold : ℚ) : List ScoredItem :=
  scoredItems.filter (fun item => threshold ≤ item.score)

/-- `RelevanceScorer.get_top_k`. -/
def getTopK (scoredItems : List ScoredItem) (topK : Nat) : List ScoredItem :=
  scoredItems.take topK

/-! ### KnowledgeSourceRanker (src/knowledge/source_ranker.py) -/

/-- `domain_source_priority.get(domain, ['wikipedia'])`. -/
def domainSourcePriority (domain : String) : List String :=
  if domain = "factual" then ["wikidata_sparql", "wikipedia"]
  else if domain = "medical" then ["wikipedia", "wikidata_sparql"]
  else if domain = "physics" then ["wikipedia", "wikidata_sparql"]
  else if domain = "biology" then ["wikipedia", "wikidata_sparql"]
  else ["wikipedia"]

/-- `query_type_source_priority.get(query_type, ['wikipedia'])`. -/
def queryTypeSourcePriority (queryType : String) : List String :=
  if queryType = "sparql" then ["wikidata_sparql"]
  else if queryType = "medical" then ["wikipedia"]
  else if queryType = "natural_language" then ["wikipedia", "wikidata_sparql"]
  else ["wikipedia"]

/-- `KnowledgeSourceRanker.rank_sources`: query-type priority first, then
domain priority, then remaining available sources, de-duplicated and
filtered to those available. -/
def rankSources (domain queryType : String) (available : List String) : List String :=
  let step := fun (acc : List String) (source : String) =>
    if source ∈ available ∧ ¬ source ∈ acc then acc ++ [source] else acc
  let combined := (queryTypeSourcePriority queryType).foldl step []
  let combined := (domainSourcePriority domain).foldl step combined
  available.foldl (fun acc source => if ¬ source ∈ acc then acc ++ [source] else acc) combined

/-! ### AdaptiveQueryGenerator.execute_query (src/core/query_generator.py)

A knowledge source's `search(query, top_k)` is an external HTTP collaborator:
modelled as `String → Nat → Except String (List String)`, where `.error`
stands for a raised exception.  `knowledge_sources` is the dictionary of
available sources. -/

/-- One pluggable knowledge source backend. -/
def Source : Type := String → Nat → Except String (List String)

/-- Dictionary lookup in `self.knowledge_sources`. -/
def lookupSource (sources : List (String × Source)) (name : String) : Option Source :=
  List.lookup name sources

/-- The `query_type == 'sparql'` accumulation loop: walk ranked sources,
skipping failures and empty results, stopping at the first source yielding
results (`top_k=5` for `wikidata_sparql`, `top_k=3` for fallbacks). -/
def sparqlGather (sources : List (String × Source)) (query : String) :
    List String → List String
  | [] => []
  | name :: rest =>
    match lookupSource sources name with
    | none => sparqlGather sources query rest
    | some src =>
      let topK := if name = "wikidata_sparql" then 5 else 3
      match src query topK with
      | .error _ => sparqlGather sources query rest
      | .ok results =>
        if results.isEmpty then sparqlGather sources query rest else results

/-- The `medical` / `natural_language` gathering: Wikipedia first
(`top_k=5`), DuckDuckGo fallback (`top_k=3`) when Wikipedia yields nothing;
failures are absorbed as empty results. -/
def wikiDdgGather (sources : List (String × Source)) (query : String) : List String :=
  let wiki :=
    match lookupSource sources "wikipedia" with
    | none => []
    | some src =>
      match src query 5 with
      | .error _ => []
      | .ok results => results
  if wiki.isEmpty then
    match lookupSource sources "duckduckgo" with
    | none => []
    | some src =>
      match src query 3 with
      | .error _ => []
      | .ok results => results
  else wiki

/-- All raw results accumulated by `execute_query` before scoring. -/
def gatherResults (sources : List (String × Source)) (query queryType domain : String) :
    List String :=
  if queryType = "sparql" then
    sparqlGather sources query (rankSources domain queryType (sources.map (·.1)))
  else wikiDdgGather sources query

/-- Relevance threshold used by `execute_query` (`0.1` for the sparql branch,
`0.15` for the medical / natural-language branches). -/
def thresholdFor (queryType : String) : ℚ :=
  if queryType = "sparql" then mkRat 1 10 else mkRat 15 100

/-- `"\n".join(items)`. -/
def joinNewline : List String → String
  | [] => ""
  | [x] => x
  | x :: xs => x ++ "\n" ++ joinNewline xs

/-- `AdaptiveQueryGenerator.execute_query`.  The outer `try/except` in the
source converts any escaping exception into `"No results found"`; the body
below is total, so the function simply never raises. -/
def executeQuery (ratio : String → String → ℚ) (sources : List (String × Source))
    (query queryType domain : String) : String :=
  let allResults := gatherResults sources query queryType domain
  let knowledge :=
    if allResults.isEmpty then "No results"
    else
      let scored := scoreRelevance ratio query allResults
      let filtered := filterByThreshold scored (thresholdFor queryType)
      let top := getTopK filtered 3
      joinNewline (top.map (·.content))
  if knowledge = "" then "No results found" else knowledge

/-! ### Prompt templates (src/utils/prompt_templates.py)

Each `TEMPLATE.format(...)` becomes a function concatenating the literal
template parts around the substituted values. -/

/-- `REASONING_PROMPT_TEMPLATE.format(question=q)`. -/
def reasoningPrompt (question : String) : String :=
  "You are a helpful assistant. Answer the following question step by step.\n\nQuestion: "
    ++ question
    ++ "\n\nThink about what information is needed to answer this question. Break down the problem and provide your reasoning.\n\nAnswer:"

/-- `FEVER_REASONING_PROMPT_TEMPLATE.format(question=q)` (literal examples
abbreviated structurally: head, the three worked examples, tail). -/
def feverReasoningPrompt (question : String) : String :=
  "You are a fact verification expert. Determine if the claim is SUPPORTED, REFUTED, or NOT ENOUGH INFO.\n\nExamples:\n1. Claim: "
    ++ String.mk [dquoteChar] ++ "Paris is the capital of France" ++ String.mk [dquoteChar]
    ++ "\n   Reasoning: Paris is widely recognized as the capital and largest city of France. This is a well-established geographical fact.\n   Verdict: SUPPORTS\n\n2. Claim: "
    ++ String.mk [dquoteChar] ++ "The Earth is flat" ++ String.mk [dquoteChar]
    ++ "\n   Reasoning: Modern science has conclusively shown through satellite imagery, physics, and direct observation that Earth is an oblate spheroid.\n   Verdict: REFUTES\n\n3. Claim: "
    ++ String.mk [dquoteChar] ++ "Albert Einstein won the Nobel Prize in Physics in 1921" ++ String.mk [dquoteChar]
    ++ "\n   Reasoning: Historical records confirm Einstein received the 1921 Nobel Prize in Physics for his discovery of the photoelectric effect.\n   Verdict: SUPPORTS\n\nNow analyze this claim:\n"
    ++ question ++ "\n\nReasoning:"

/-- `DOMAIN_IDENTIFICATION_PROMPT_TEMPLATE.format(question=q)`. -/
def domainIdentificationPrompt (question : String) : String :=
  "Identify the knowledge domains relevant to answer this question.\n\nAvailable domains: [factual, medical, physics, biology]\n\nQuestion: "
    ++ question ++ "\n\nRelevant domains (select from the list):"

/-- `SPARQL_GENERATION_PROMPT_TEMPLATE.format(sentence=s)`. -/
def sparqlGenerationPrompt (sentence : String) : String :=
  "Convert this sentence to a SPARQL query for Wikidata. The query should retrieve relevant entities and facts.\n\nSentence: "
    ++ sentence ++ "\n\nSPARQL Query:"

/-- `MEDICAL_EXTRACTION_PROMPT_TEMPLATE.format(sentence=s)`. -/
def medicalExtractionPrompt (sentence : String) : String :=
  "Extract key medical information from this sentence:\n\nSentence: "
    ++ sentence ++ "\n\nKey medical terms and concepts:"

/-- `NL_QUERY_EXTRACTION_PROMPT_TEMPLATE.format(sentence=s)`. -/
def nlQueryExtractionPrompt (sentence : String) : String :=
  "Extract the main search query from this sentence:\n\nSentence: "
    ++ sentence ++ "\n\nSearch query:"

/-- `RATIONALE_CORRECTION_PROMPT_TEMPLATE.format(...)`. -/
def rationaleCorrectionPrompt (originalRationale supportingKnowledge : String) : String :=
  "Given the supporting knowledge, correct or improve the following rationale to make it more accurate.\n\nOriginal Rationale: "
    ++ originalRationale
    ++ "\n\nSupporting Knowledge:\n" ++ supportingKnowledge
    ++ "\n\nCorrected Rationale:"

/-- `ANSWER_CONSOLIDATION_PROMPT_TEMPLATE.format(...)`. -/
def answerConsolidationPrompt (question reasoningSteps : String) : String :=
  "Based on the following reasoning steps, provide a concise final answer to the question.\n\nQuestion: "
    ++ question
    ++ "\n\nReasoning steps:\n" ++ reasoningSteps
    ++ "\n\nIMPORTANT: Provide ONLY the answer, nothing else. \n- For fact verification (SUPPORTS/REFUTES/NOT ENOUGH INFO): Provide only the label (one of: SUPPORTS, REFUTES, or NOT ENOUGH INFO).\n- For multiple choice (A, B, C, D): Provide only the letter.\n- For factual questions: Provide only the specific fact or entity name.\n- Do NOT include explanations, reasoning, or additional text.\n\nExamples:\n- If the claim is supported: "
    ++ String.mk [dquoteChar] ++ "SUPPORTS" ++ String.mk [dquoteChar]
    ++ "\n- If the claim is refuted: " ++ String.mk [dquoteChar] ++ "REFUTES" ++ String.mk [dquoteChar]
    ++ "  \n- If there's not enough information: " ++ String.mk [dquoteChar] ++ "NOT ENOUGH INFO" ++ String.mk [dquoteChar]
    ++ "\n- For multiple choice: " ++ String.mk [dquoteChar] ++ "A" ++ String.mk [dquoteChar]
    ++ " or " ++ String.mk [dquoteChar] ++ "B" ++ String.mk [dquoteChar]
    ++ " or " ++ String.mk [dquoteChar] ++ "C" ++ String.mk [dquoteChar]
    ++ " or " ++ String.mk [dquoteChar] ++ "D" ++ String.mk [dquoteChar]
    ++ "\n- For factual: " ++ String.mk [dquoteChar] ++ "Paris" ++ String.mk [dquoteChar]
    ++ " or " ++ String.mk [dquoteChar] ++ "Einstein" ++ String.mk [dquoteChar]
    ++ "\n\nFinal Answer:"

/-- The f-string prompt inside `validate_consensus_answer`. -/
def validationPrompt (question consensusAnswer : String) : String :=
  "Given this question and answer, determine if the answer is reasonable and relevant to the question.\n\nQuestion: "
    ++ question ++ "\nAnswer: " ++ consensusAnswer
    ++ "\n\nIs this answer reasonable and relevant? Answer with YES or NO only."

/-! ### ReasoningPreparation (src/core/reasoning.py) -/

/-- `_estimate_question_complexity`: adaptive sampling temperature. -/
def estimateComplexity (question : String) (datasetName : Option String) : ℚ :=
  let questionLower := pyLower question
  if datasetName = some "fever" then mkRat 3 10
  else if ["what is", "who is", "when was", "where is", "what was"].any
      (fun p => containsSub p questionLower) then mkRat 3 10
  else if ["how does", "why", "explain", "compare", "describe"].any
      (fun p => containsSub p questionLower) then mkRat 6 10
  else if ["relationship between", "what if", "analyze", "evaluate", "both", "and also"].any
      (fun p => containsSub p questionLower) then mkRat 8 10
  else mkRat 7 10

/-- `_normalize_answer`: strip leading marker prefixes (in fixed order),
truncate to 100 characters, collapse whitespace. -/
def normalizeAnswer (answer : String) : String :=
  let step := fun (acc : List Char) (p : List Char) =>
    if p.isPrefixOf acc then listStrip (lstripColon (listStrip (acc.drop p.length)))
    else acc
  let a := listStrip (pyLower answer).data
  let a := [("the answer is" : String), "answer:", "therefore", "thus", "so"].foldl
    (fun acc p => step acc p.data) a
  let a := a.take 100
  " ".intercalate (pySplitWs ⟨a⟩)

/-- The modal multiplicity in a list of (normalized) answers:
`Counter(xs).most_common(1)[0][1]`. -/
def maxCount (l : List String) : Nat :=
  (l.map (fun a => l.count a)).foldr max 0

/-- The modal answer's frequency share `count / len(answers)` (exact
rational in place of Python float division). -/
def consensusShare (answers : List String) : ℚ :=
  mkRat (maxCount (answers.map normalizeAnswer)) answers.length

/-- `ReasoningPreparation.has_consensus`. -/
def hasConsensus (answers : List String) (threshold : ℚ) : Bool :=
  if answers.isEmpty then false
  else decide (threshold < consensusShare answers)

/-- `_parse_domains`: keyword-family matching, defaulting to `['factual']`. -/
def parseDomains (domainsStr : String) : List String :=
  let s := pyLower domainsStr
  let keywordTable : List (String × List String) :=
    [("factual", ["factual", "wikipedia", "historical", "geographic", "political", "general knowledge"]),
     ("medical", ["medical", "health", "disease", "treatment", "medicine", "patient", "clinical", "diagnosis"]),
     ("physics", ["physics", "force", "energy", "motion", "quantum", "relativity", "mechanics", "electromagnetic"]),
     ("biology", ["biology", "organism", "cell", "genetics", "evolution", "species", "molecular", "biochemical"])]
  let found := (keywordTable.filter
    (fun dk => dk.2.any (fun kw => containsSub kw s))).map (·.1)
  if found.isEmpty then ["factual"] else found

/-- Split on `'. '` and keep the first piece (`answer.split('. ')[0]`). -/
def takeToSentenceDot (cs : List Char) : List Char :=
  match pySplitOnAux ('.' :: ' ' :: []) cs.length [] cs with
  | [] => cs
  | p :: _ => p

/-- The explicit-marker branch of `_extract_answer`, applied after the
indicator has been located in the lowercased rationale. -/
def extractAnswerMarked (lowered : List Char) (indicator : List Char) : Option (List Char) :=
  let parts := pySplitOnAux indicator lowered.length [] lowered
  if parts.length ≤ 1 then none
  else
    let a := listStrip (parts.getLastD [])
    let a := match pySplitOnAux ('\n' :: []) a.length [] a with
      | [] => a
      | p :: _ => listStrip p
    let a := match pySplitOnAux "Therefore".data a.length [] a with
      | [] => a
      | p :: _ => listStrip p
    let a := match pySplitOnAux "Thus".data a.length [] a with
      | [] => a
      | p :: _ => listStrip p
    let a := match pySplitOnAux "Hence".data a.length [] a with
      | [] => a
      | p :: _ => listStrip p
    let a := listStrip (lstripColon a)
    let a := if containsSubL ('.' :: ' ' :: []) a then takeToSentenceDot a ++ ['.'] else a
    some (listStrip a)

/-- Try the indicator list in order, like the `for indicator in indicators`
loop of `_extract_answer`. -/
def extractAnswerIndicators (lowered : List Char) : List String → Option (List Char)
  | [] => none
  | ind :: rest =>
    if containsSubL (pyLower ind).data lowered then
      match extractAnswerMarked lowered (pyLower ind).data with
      | some a => some a
      | none => extractAnswerIndicators lowered rest
    else extractAnswerIndicators lowered rest

/-- `ReasoningPreparation._extract_answer`. -/
def extractAnswer (rationale : String) : String :=
  let cs := subAll (dropLit ('*' :: '*' :: [])) rationale.data
  let cs := subAll (dropLit ('*' :: [])) cs
  let cs := listStrip cs
  let lowered := cs.map Char.toLower
  match extractAnswerIndicators lowered
      ["Answer:", "Final Answer:", "Answer is", "The answer is", "Conclusion:"] with
  | some a => ⟨a⟩
  | none =>
    let sentences := ((pySplitOnAux ('.' :: []) cs.length [] cs).map listStrip).filter
      (fun s => ¬ s.isEmpty)
    match sentences.getLast? with
    | some lastSentence =>
      let ls := [("So " : String), "Thus ", "Therefore ", "Hence ", "Based on ", "In conclusion "].foldl
        (fun acc p =>
          if (pyLower p).data.isPrefixOf (acc.map Char.toLower) then
            listStrip (acc.drop p.length)
          else acc) lastSentence
      let ls := subAll matchTheQuestion ls
      let ls := subAll matchQuoted ls
      ⟨listStrip ls⟩
    | none => ⟨(listStrip cs).take 100⟩

/-- `validate_consensus_answer`'s parsing of the yes/no validation call. -/
def validationSaysYes (validation : String) : Bool :=
  containsSub "yes" (pyLower validation)

/-! ### AnswerConsolidation (src/core/consolidation.py) -/

/-- `_get_fever_consolidation_prompt`. -/
def feverConsolidationPrompt (question reasoningSteps : String) : String :=
  "Based on the following reasoning steps, determine if the claim is SUPPORTS, REFUTES, or NOT ENOUGH INFO.\n\nQuestion/Claim: "
    ++ question
    ++ "\n\nReasoning steps:\n" ++ reasoningSteps
    ++ "\n\nYou must respond with ONLY one of these three labels:\n- SUPPORTS (if the claim is supported by evidence)\n- REFUTES (if the claim is contradicted by evidence)\n- NOT ENOUGH INFO (if there is insufficient information to verify)\n\nDo NOT provide explanations. Respond with ONLY the label.\n\nFinal Answer:"

/-- The ordered prefix-removal passes of `_extract_final_answer`
(`re.sub(p, "", ...)` for each pattern, applied sequentially). -/
def removeConnectives (cs : List Char) : List Char :=
  let passes : List (List Char → Option (List Char)) :=
    [matchLitCommaWs "therefore".data,
     matchLitCommaWs "thus".data,
     matchLitCommaWs "hence".data,
     matchLitCommaWs "so".data,
     matchLitToComma "based on".data,
     matchLitCommaWs "in conclusion".data,
     matchLitToComma "to answer".data,
     matchLitToComma "the answer to".data]
  passes.foldl (fun acc pass => subAll pass acc) cs

/-- Lazy capture of regex `(.+?)(?:\.|$|\n)` (DOTALL): at least one
character, then up to (excluding) the next `'.'` or newline. -/
def lazyCapTail : List Char → List Char
  | [] => []
  | c :: rest => if c = '.' ∨ c = '\n' then [] else c :: lazyCapTail rest

/-- Attempt a match of `lit\s*(.+?)(?:\.|$|\n)` (or `\s+` when
`wsPlus = true`) anchored at the head of `cs`; returns the capture group. -/
def matchAnswerAt (lit : List Char) (wsPlus : Bool) (cs : List Char) : Option (List Char) :=
  match dropCiLit lit cs with
  | none => none
  | some t =>
    let w := (spanP (pyWs ·) t).1
    let u := t.drop w.length
    match u with
    | c :: rest =>
      if wsPlus ∧ w.isEmpty then none else some (c :: lazyCapTail rest)
    | [] =>
      -- all-whitespace tail: the greedy `\s*` backtracks one character,
      -- which then matches `(.+?)` followed by end-of-string
      if (if wsPlus then 2 else 1) ≤ w.length then some (t.drop (w.length - 1))
      else none

/-- `re.search` for the answer-indicator patterns: leftmost position whose
full-pattern match succeeds. -/
def searchAnswerAt (lit : List Char) (wsPlus : Bool) : List Char → Option (List Char)
  | [] => none
  | c :: rest =>
    match matchAnswerAt lit wsPlus (c :: rest) with
    | some cap => some cap
    | none => searchAnswerAt lit wsPlus rest

/-- Post-processing of `match.group(1)` in `_extract_final_answer`. -/
def postCapture (cap : List Char) : String :=
  let a := listStrip cap
  let a := stripQuotes a
  let a := subAll matchTheQuestion a
  let a := subAll matchQuoted a
  let a := if containsSubL ('.' :: ' ' :: []) a then takeToSentenceDot a else a
  let lastIsPunct : Bool :=
    match a.getLast? with
    | some c => c = '.' || c = ',' || c = ';' || c = ':'
    | none => false
  let a := if 1 < a.length && lastIsPunct then a.dropLast else a
  ⟨listStrip (a.take 200)⟩

/-- Try the four indicator patterns in order. -/
def tryAnswerPatterns (cs : List Char) : Option String :=
  match searchAnswerAt "final answer:".data false cs with
  | some cap => some (postCapture cap)
  | none =>
    match searchAnswerAt "answer:".data false cs with
    | some cap => some (postCapture cap)
    | none =>
      match searchAnswerAt "the answer is".data false cs with
      | some cap => some (postCapture cap)
      | none =>
        match searchAnswerAt "is".data true cs with
        | some cap => some (postCapture cap)
        | none => none

/-- `AnswerConsolidation._extract_final_answer`. -/
def extractFinalAnswer (response : String) : String :=
  let r := listStrip response.data
  let cleaned := removeConnectives r
  match tryAnswerPatterns cleaned with
  | some answer => answer
  | none =>
    let sentences := ((pySplitOnAux ('.' :: []) cleaned.length [] cleaned).map listStrip).filter
      (fun s => ¬ s.isEmpty)
    match sentences.getLast? with
    | some lastSentence =>
      let ls := [("Therefore " : String), "Thus ", "Hence ", "So "].foldl
        (fun acc p => if p.data.isPrefixOf acc then listStrip (acc.drop p.length) else acc)
        lastSentence
      let ls := stripQuotes ls
      let ls := subAll matchTheQuestion ls
      ⟨listStrip (ls.take 200)⟩
    | none => ⟨listStrip (cleaned.take 200)⟩

/-- `AnswerConsolidation.consolidate`'s detection of FEVER-style questions. -/
def isFeverStyleQuestion (question : String) : Bool :=
  [("claim" : String), "statement", "supports", "refutes"].any
    (fun kw => containsSub kw (pyLower question))

/-- `"\n".join(f"{i+1}. {rationale}" for ...)`. -/
def numberJoin (start : Nat) : List String → String
  | [] => ""
  | [r] => toString start ++ ". " ++ r
  | r :: rs => toString start ++ ". " ++ r ++ "\n" ++ numberJoin (start + 1) rs

/-! ### RationaleCorrector (src/core/rationale_corrector.py) and the
GroqClient / GeminiClient gateway (src/models/llm_client.py)

The backing LLM of the pipeline is modelled as a call-indexed oracle
`llm : Nat → String → ℚ → String` (call number, prompt, temperature →
response), so that theorems quantify over every sequence of LLM responses.
The provider inside a single gateway `call` is modelled per attempt. -/

/-- `RationaleCorrector.correct_rationale`, threading the LLM call counter.
Returns the corrected text and the next call index. -/
def correctRationale (llm : Nat → String → ℚ → String) (n : Nat)
    (originalRationale supportingKnowledge context : String) : String × Nat :=
  if supportingKnowledge = "" ∨ supportingKnowledge = "No results found" then
    (originalRationale, n)
  else
    let rationaleWithContext :=
      if context ≠ "" then context ++ "\n\nRationale to correct: " ++ originalRationale
      else originalRationale
    let prompt := rationaleCorrectionPrompt rationaleWithContext supportingKnowledge
    (pyStrip (llm n prompt 0), n + 1)

/-- Outcome of one raw provider attempt inside `GroqClient.call`. -/
inductive ProviderAttempt where
  | ok (response : String)
  | err (msg : String)
deriving DecidableEq, Repr

/-- `'rate_limit' in error_str.lower() or '429' in error_str`. -/
def isRateLimitError (msg : String) : Bool :=
  containsSub "rate_limit" (pyLower msg) || containsSub "429" msg

/-- Character list after the first occurrence of the literal, or `none`. -/
def afterLit (lit : List Char) : List Char → Option (List Char)
  | [] => if lit.isEmpty then some [] else none
  | c :: cs => if lit.isPrefixOf (c :: cs) then some ((c :: cs).drop lit.length)
               else afterLit lit cs

/-- The optional minutes group `(?:(\d+)m)?` of the wait-time regex. -/
def parseMinutes (cs : List Char) : Option (Nat × List Char) :=
  match spanP (·.isDigit) cs with
  | ([], _) => none
  | (ds, rest) =>
    match rest with
    | 'm' :: rest2 => some (natOfDigits ds, rest2)
    | _ => none

/-- The optional seconds group `(?:(\d+\.?\d*)s)?` of the wait-time regex,
as an exact rational. -/
def parseSeconds (cs : List Char) : Option ℚ :=
  match spanP (·.isDigit) cs with
  | ([], _) => none
  | (ds, rest) =>
    match rest with
    | 's' :: _ => some (mkRat (natOfDigits ds) 1)
    | '.' :: rest2 =>
      match spanP (·.isDigit) rest2 with
      | (fs, 's' :: _) => some (qAdd (mkRat (natOfDigits ds) 1) (mkRat (natOfDigits fs) (10 ^ fs.length)))
      | _ => none
    | _ => none

/-- `re.search(r'try again in (?:(\d+)m)?(?:(\d+\.?\d*)s)?', msg)`: the
minutes and seconds encoded after the first `"try again in "`, each group
defaulting to zero; `none` when the literal (with its trailing space) does
not occur, in which case the caller keeps its default. -/
def parseWaitFields (msg : String) : Option (Nat × ℚ) :=
  match afterLit "try again in ".data msg.data with
  | none => none
  | some rest =>
    let (minutes, rest2) :=
      match parseMinutes rest with
      | some (m, r) => (m, r)
      | none => (0, rest)
    let seconds :=
      match parseSeconds rest2 with
      | some s => s
      | none => mkRat 0 1
    some (minutes, seconds)

/-- Retry wait before the next attempt: the parsed duration plus the fixed
10-second safety buffer when the message encodes one, else exponential
backoff `base_delay * 2 ** attempt` with `base_delay = 2`. -/
def retryWait (msg : String) (attempt : Nat) : ℚ :=
  match parseWaitFields msg with
  | some (m, s) => qAdd (qAdd (mkRat (60 * m) 1) s) (mkRat 10 1)
  | none => mkRat (2 * 2 ^ attempt) 1

/-- The wait communicated by the terminal rate-limit error (no buffer),
when the message encodes one. -/
def terminalWait (msg : String) : Option ℚ :=
  (parseWaitFields msg).map (fun p => qAdd (mkRat (60 * p.1) 1) p.2)

/-- Errors escaping `GroqClient.call`. -/
inductive GroqError where
  | rateLimitExceeded (retries : Nat) (waitSeconds : Option ℚ)
  | provider (msg : String)
deriving Repr

/-- Result of one `GroqClient.call`: outcome, sleeps performed, number of
provider attempts, and the cache afterwards. -/
structure GroqOut where
  result : Except GroqError String
  waits : List ℚ
  providerCalls : Nat
  cache : List (String × String)
deriving Repr

/-- `GroqClient.call`'s `for attempt in range(max_retries)` loop.
`attempt` is the current index, `fuel` the remaining iterations. -/
def groqLoop (provider : Nat → ℚ → ProviderAttempt) (temp : ℚ) :
    Nat → Nat → Except GroqError String × List ℚ × Nat
  | _, 0 => (.error (.provider "Failed to get response after retries"), [], 0)
  | attempt, fuel + 1 =>
    match provider attempt temp with
    | .ok response => (.ok response, [], 1)
    | .err msg =>
      if isRateLimitError msg then
        if attempt < 3 - 1 then
          let (res, waits, calls) := groqLoop provider temp (attempt + 1) fuel
          (res, retryWait msg attempt :: waits, calls + 1)
        else (.error (.rateLimitExceeded 3 (terminalWait msg)), [], 1)
      else (.error (.provider msg), [], 1)

/-- `GroqClient.call`.  The request cache is keyed by `hash(prompt)`,
modelled as the prompt text itself. -/
def groqCall (cache : List (String × String)) (prompt : String)
    (temperature : Option ℚ) (defaultTemp : ℚ)
    (provider : Nat → ℚ → ProviderAttempt) : GroqOut :=
  match List.lookup prompt cache with
  | some cached => ⟨.ok cached, [], 0, cache⟩
  | none =>
    let temp := temperature.getD defaultTemp
    let (res, waits, calls) := groqLoop provider temp 0 3
    match res with
    | .ok response => ⟨.ok response, waits, calls, cache ++ [(prompt, response)]⟩
    | .error e => ⟨.error e, waits, calls, cache⟩

/-- Outcome of one raw Gemini provider attempt. -/
inductive GeminiAttempt where
  | ok (text : String)
  | blocked
  | err (msg : String)
deriving DecidableEq, Repr

/-- Result of one `GeminiClient.call`. -/
structure GeminiOut where
  result : Except String String
  providerCalls : Nat
  cache : List (String × String)
deriving Repr

/-- `GeminiClient.call`: cache, one blocked-content retry with a neutral
prompt, and the catch-all that converts provider errors into a fallback
response string (never re-raised). -/
def geminiCall (cache : List (String × String)) (prompt : String)
    (temperature : Option ℚ) (defaultTemp : ℚ)
    (provider : String → ℚ → GeminiAttempt) : GeminiOut :=
  match List.lookup prompt cache with
  | some cached => ⟨.ok cached, 0, cache⟩
  | none =>
    let temp := temperature.getD defaultTemp
    match provider prompt temp with
    | .ok text => ⟨.ok text, 1, cache ++ [(prompt, text)]⟩
    | .blocked =>
      let safePrompt := "Please provide factual information about: " ++ strTake prompt 200
      match provider safePrompt temp with
      | .ok text => ⟨.ok text, 2, cache ++ [(prompt, text)]⟩
      | .blocked => ⟨.ok "I cannot provide a response due to content safety filters.", 2, cache⟩
      | .err _ => ⟨.ok "I cannot provide a response due to content safety filters.", 2, cache⟩
    | .err msg => ⟨.ok ("Error generating response: " ++ msg), 1, cache⟩

/-! ### ChainOfKnowledge.run (src/pipeline/chain_of_knowledge.py)

The pipeline's LLM client is the call-indexed oracle described above; every
`llm_client.call(prompt, temperature)` made while processing one question is
numbered consecutively.  Python dict results become ordered association
lists over `PyVal`. -/

/-- The backing LLM, as an oracle over (call index, prompt, temperature). -/
def LLM : Type := Nat → String → ℚ → String

/-- Values of the result dictionaries returned by `run`. -/
inductive PyVal where
  | str (s : String)
  | list (l : List String)
  | dict (d : List (String × String))
deriving DecidableEq, Repr

/-- `AdaptiveQueryGenerator._clean_sparql_query`. -/
def cleanSparql (queryStr : String) : String :=
  let q :=
    if containsSub "```" queryStr then
      let q1 := (pySplitOn "```" queryStr).getD 1 ""
      if "sparql".data.isPrefixOf q1.data then ⟨q1.data.drop 7⟩ else q1
    else queryStr
  pyStrip q

/-- Truncation to the 300-character Wikipedia API limit. -/
def truncate300 (q : String) : String :=
  if 300 < q.length then strTake q 297 ++ "..." else q

/-- `AdaptiveQueryGenerator.generate_query`, threading the LLM call
counter: returns (query, query_type, next call index). -/
def generateQueryR (llm : LLM) (n : Nat) (rationale domain : String) :
    String × String × Nat :=
  if domain = "factual" then
    (cleanSparql (llm n (sparqlGenerationPrompt rationale) 0), "sparql", n + 1)
  else if domain = "medical" then
    (truncate300 (pyStrip (llm n (medicalExtractionPrompt rationale) 0)), "medical", n + 1)
  else
    (truncate300 (pyStrip (llm n (nlQueryExtractionPrompt rationale) 0)), "natural_language", n + 1)

/-- The `for domain in domains` attempt loop for a single rationale inside
`run`'s Stage 2: first domain yielding non-trivial knowledge and a
non-empty corrected rationale wins. -/
def correctOneRun (ratio : String → String → ℚ) (llm : LLM)
    (sources : List (String × Source)) (rationale context : String) :
    Nat → List String → Option String × Nat
  | n, [] => (none, n)
  | n, domain :: rest =>
    let gq := generateQueryR llm n rationale domain
    let knowledge := executeQuery ratio sources gq.1 gq.2.1 domain
    if knowledge ≠ "" ∧ knowledge ≠ "No results found" ∧ 10 < (pyStrip knowledge).length then
      let cr := correctRationale llm gq.2.2 rationale knowledge context
      if cr.1 ≠ "" ∧ 0 < (pyStrip cr.1).length then (some cr.1, cr.2)
      else correctOneRun ratio llm sources rationale context cr.2 rest
    else correctOneRun ratio llm sources rationale context gq.2.2 rest

/-- The running progressive-correction context string built from the
previously corrected rationales. -/
def contextLines (start : Nat) : List String → String
  | [] => ""
  | c :: cs => toString start ++ ". " ++ c ++ "\n" ++ contextLines (start + 1) cs

/-- The `context` value at the top of each Stage 2 iteration. -/
def buildContext (corrected : List String) : String :=
  if corrected.isEmpty then ""
  else "Previous corrected reasoning steps:\n" ++ contextLines 1 corrected

/-- `run`'s Stage 2 loop over all rationales, accumulating the corrected
list in order. -/
def runLoop (ratio : String → String → ℚ) (llm : LLM)
    (sources : List (String × Source)) (domains : List String) :
    Nat → List String → List String → List String × Nat
  | n, acc, [] => (acc, n)
  | n, acc, r :: rs =>
    let context := buildContext acc
    match correctOneRun ratio llm sources r context n domains with
    | (some c, n1) => runLoop ratio llm sources domains n1 (acc ++ [c]) rs
    | (none, n1) => runLoop ratio llm sources domains n1 (acc ++ [r]) rs

/-- `AnswerConsolidation.consolidate`, threading the LLM call counter. -/
def consolidate (llm : LLM) (n : Nat) (question : String)
    (correctedRationales : List String) : String × Nat :=
  let rationaleText := numberJoin 1 correctedRationales
  let prompt :=
    if isFeverStyleQuestion question then feverConsolidationPrompt question rationaleText
    else answerConsolidationPrompt question rationaleText
  (extractFinalAnswer (llm n prompt 0), n + 1)

/-- `max(set(answers), key=answers.count)`.  Python's `set` iteration order
is unspecified; it is modelled as the first answer attaining the maximal
multiplicity (no claim depends on the tie-break). -/
def modalAnswer (answers : List String) : String :=
  (answers.find? (fun a => answers.count a = maxCount answers)).getD ""

/-- Stage 2 + Stage 3 and the full-pipeline result dictionary. -/
def runFull (ratio : String → String → ℚ) (llm : LLM)
    (sources : List (String × Source)) (question : String)
    (rationales domains : List String) (n : Nat) : List (String × PyVal) :=
  let loopOut := runLoop ratio llm sources domains n [] rationales
  let corrected := loopOut.1
  let finalAnswer := (consolidate llm loopOut.2 question corrected).1
  [("answer", .str finalAnswer),
   ("initial_rationales", .list rationales),
   ("corrected_rationales", .list corrected),
   ("domains", .list domains),
   ("stage", .str "full_pipeline"),
   ("confidence", .str "medium"),
   ("models_used", .dict
     [("reasoning", "Llama 3 70B"),
      ("query_generation", "Llama 3 70B"),
      ("consolidation", "Llama 3 70B")])]

/-- The early-stopping result dictionary returned by `run`. -/
def earlyDict (consensusAnswer : String) (rationales : List String) : List (String × PyVal) :=
  [("answer", .str consensusAnswer),
   ("rationales", .list rationales),
   ("stage", .str "consensus_validated"),
   ("confidence", .str "high"),
   ("models_used", .dict
     [("reasoning", "Llama 3 70B"),
      ("query_generation", "None (early stop)"),
      ("consolidation", "None (early stop)")])]

/-- `ChainOfKnowledge.run`: `k = NUM_RATIONALES_FEVER = 3` for claim-style
questions, else `NUM_RATIONALES = 5`; early stopping only for
non-claim-style questions with strong validated consensus. -/
def runDecide (ratio : String → String → ℚ) (llm : LLM)
    (sources : List (String × Source)) (question : String)
    (rationales answers domains : List String) (k : Nat) : List (String × PyVal) :=
  if !containsSub "Claim:" question && hasConsensus answers (mkRat 7 10) then
    let consensusAnswer := modalAnswer answers
    if validationSaysYes (llm (k + 1) (validationPrompt question consensusAnswer) 0) then
      earlyDict consensusAnswer rationales
    else runFull ratio llm sources question rationales domains (k + 2)
  else runFull ratio llm sources question rationales domains (k + 1)

/-- `ChainOfKnowledge.run` (see `runDecide` for the early-stop decision). -/
def run (ratio : String → String → ℚ) (llm : LLM)
    (sources : List (String × Source)) (question : String)
    (datasetName : Option String) : List (String × PyVal) :=
  let isFever := containsSub "Claim:" question
  let k := if isFever then 3 else 5
  let temp := estimateComplexity question datasetName
  let prompt :=
    if datasetName = some "fever" then feverReasoningPrompt question
    else reasoningPrompt question
  let rationales := (List.range k).map (fun i => llm i prompt temp)
  let answers := rationales.map extractAnswer
  let domains := parseDomains (llm k (domainIdentificationPrompt question) 0)
  runDecide ratio llm sources question rationales answers domains k


/-! ### Concrete oracles used by witnesses and counterexamples -/

/-- A constant-zero `SequenceMatcher.ratio` oracle. -/
def cexRatio : String → String → ℚ := fun _ _ => mkRat 0 1

/-- A knowledge source whose backend always raises. -/
def cexSrcFail : Source := fun _ _ => .error "connection timed out"

/-- A knowledge source returning one irrelevant snippet. -/
def cexSrcOk : Source := fun _ _ => .ok ["x"]

/-- LLM response sequence driving a claim-style question through the full
pipeline: three rationales "r", domains "factual", three query-generation
calls, and a consolidation response that is not a verification label. -/
def cexLLM : LLM := fun n _ _ =>
  if n = 7 then "hello world" else if n = 3 then "factual" else "r"

/-- LLM response sequence driving a plain question into validated early
stopping: five agreeing rationales, a domain call, and a YES validation. -/
def cexEarlyLLM : LLM := fun n _ _ =>
  if n = 6 then "YES" else if n = 5 then "factual" else "The answer is Paris."

instance : IsTotal ScoredItem scoreGe := ⟨fun a b => le_total b.score a.score⟩

instance : IsTrans ScoredItem scoreGe := ⟨fun _ _ _ h1 h2 => le_trans h2 h1⟩

end CoK

namespace CoK

/-! ### Bridging lemmas for the kernel-reducible rational arithmetic -/

/-- `qAdd` is ordinary addition on `ℚ`. -/
theorem qAdd_eq (a b : ℚ) : qAdd a b = a + b := by
  have ha : (a.den : ℚ) ≠ 0 := by exact_mod_cast a.den_nz
  have hb : (b.den : ℚ) ≠ 0 := by exact_mod_cast b.den_nz
  rw [qAdd, Rat.mkRat_eq_div]
  conv_rhs => rw [← Rat.num_div_den a, ← Rat.num_div_den b]
  rw [div_add_div _ _ ha hb]
  push_cast
  ring_nf

/-- `qMul` is ordinary multiplication on `ℚ`. -/
theorem qMul_eq (a b : ℚ) : qMul a b = a * b := by
  rw [qMul, Rat.mkRat_eq_div]
  conv_rhs => rw [← Rat.num_div_den a, ← Rat.num_div_den b]
  rw [div_mul_div_comm]
  push_cast
  ring_nf

/-! ### The modal count is attained and maximal -/

theorem foldrMax_mem : ∀ (xs : List Nat), xs ≠ [] → xs.foldr max 0 ∈ xs := by
  intro xs
  induction xs with
  | nil => intro h; exact absurd rfl h
  | cons x t ih =>
    intro _
    cases t with
    | nil => simp
    | cons y u =>
      have hfold : (x :: y :: u).foldr max 0 = max x ((y :: u).foldr max 0) := rfl
      rcases max_choice x ((y :: u).foldr max 0) with h | h
      · rw [hfold, h]
        exact List.mem_cons_self x _
      · rw [hfold, h]
        exact List.mem_cons_of_mem x (ih (by simp))

theorem le_foldrMax : ∀ (xs : List Nat) (x : Nat), x ∈ xs → x ≤ xs.foldr max 0 := by
  intro xs
  induction xs with
  | nil => intro x h; simp at h
  | cons y t ih =>
    intro x h
    rcases List.mem_cons.mp h with rfl | h
    · exact le_max_left _ _
    · exact le_trans (ih x h) (le_max_right _ _)

/-- `maxCount` is the multiplicity of some member and bounds every
multiplicity: it is the modal frequency. -/
theorem maxCount_attained (l : List String) (h : l ≠ []) :
    (∃ a ∈ l, l.count a = maxCount l) ∧ ∀ b, l.count b ≤ maxCount l := by
  constructor
  · have hmem : maxCount l ∈ l.map (fun a => l.count a) :=
      foldrMax_mem _ (by simpa using h)
    rcases List.mem_map.mp hmem with ⟨a, ha, hc⟩
    exact ⟨a, ha, hc⟩
  · intro b
    by_cases hb : b ∈ l
    · exact le_foldrMax _ _ (List.mem_map.mpr ⟨b, hb, rfl⟩)
    · rw [List.count_eq_zero_of_not_mem hb]; exact Nat.zero_le _

/-! ### Claim theorems -/

/-- Claim C1: for every non-empty answer list and every threshold,
`has_consensus` returns true iff the modal normalized answer's frequency
share is strictly greater than the threshold; at an exactly-equal share it
returns false.  The last conjunct certifies that `consensusShare` really is
the modal (maximal, attained) normalized multiplicity over the list
length. -/
theorem hasConsensus_iff_modal_share (answers : List String) (threshold : ℚ)
    (h : answers ≠ []) :
    (hasConsensus answers threshold = true ↔ threshold < consensusShare answers)
    ∧ (consensusShare answers = threshold → hasConsensus answers threshold = false)
    ∧ ∃ a ∈ answers.map normalizeAnswer,
        (answers.map normalizeAnswer).count a = maxCount (answers.map normalizeAnswer)
        ∧ ∀ b, (answers.map normalizeAnswer).count b
            ≤ maxCount (answers.map normalizeAnswer) := by
  have hne : answers.isEmpty = false := by
    cases answers with
    | nil => exact absurd rfl h
    | cons x t => rfl
  constructor
  · rw [hasConsensus, hne]
    simp
  constructor
  · intro heq
    rw [hasConsensus, hne]
    simp [heq]
  · have hm := maxCount_attained (answers.map normalizeAnswer)
      (by simpa using h)
    rcases hm.1 with ⟨a, ha, hc⟩
    exact ⟨a, ha, hc, hm.2⟩

/-- Witness for C1 at the boundary: two distinct answers and threshold 1/2,
where the modal share equals the threshold exactly and consensus is
refused. -/
theorem hasConsensus_iff_modal_share_witness :
    hasConsensus ["yes", "no"] (mkRat 1 2) = false
    ∧ consensusShare ["yes", "no"] = mkRat 1 2 :=
  ⟨(hasConsensus_iff_modal_share ["yes", "no"] (mkRat 1 2) (by decide)).2.1 (by decide),
   by decide⟩

/-- Claim C4: a Gateway call whose prompt is already cached returns the
cached response with zero provider calls and an unchanged cache, for every
temperature argument, in both the Groq and the Gemini client (the cache key
is the prompt text only). -/
theorem gatewayCache_hit (cache : List (String × String)) (p r : String)
    (tempG tempM : Option ℚ) (dtG dtM : ℚ)
    (provG : Nat → ℚ → ProviderAttempt) (provM : String → ℚ → GeminiAttempt)
    (h : List.lookup p cache = some r) :
    groqCall cache p tempG dtG provG = ⟨.ok r, [], 0, cache⟩
    ∧ geminiCall cache p tempM dtM provM = ⟨.ok r, 0, cache⟩ := by
  rw [groqCall, geminiCall, h]
  exact ⟨rfl, rfl⟩

/-- Witness for C4: a concrete cached prompt, hit at two different
temperatures by the two clients while the providers would fail. -/
theorem gatewayCache_hit_witness :
    groqCall [("p", "r")] "p" (some (mkRat 9 10)) 0 (fun _ _ => .err "x")
      = ⟨.ok "r", [], 0, [("p", "r")]⟩
    ∧ geminiCall [("p", "r")] "p" (some (mkRat 1 10)) 0 (fun _ _ => .err "x")
      = ⟨.ok "r", 0, [("p", "r")]⟩ :=
  gatewayCache_hit [("p", "r")] "p" "r" _ _ _ _ _ _ (by decide)

/-- Claim C6 (amended): on a provider failure that is not classified as a
rate-limit error, `GroqClient.call` re-raises it immediately after a single
provider attempt, with no retry and no sleep; `GeminiClient.call` instead
catches any provider error and returns the fallback response string
`"Error generating response: <error>"` without retrying. -/
theorem nonRateLimit_error_behaviour (cache : List (String × String)) (p : String)
    (tempG tempM : Option ℚ) (dtG dtM : ℚ) (msgG msgM : String)
    (provG : Nat → ℚ → ProviderAttempt) (provM : String → ℚ → GeminiAttempt)
    (hc : List.lookup p cache = none)
    (hG : provG 0 (tempG.getD dtG) = .err msgG)
    (hrl : isRateLimitError msgG = false)
    (hM : provM p (tempM.getD dtM) = .err msgM) :
    groqCall cache p tempG dtG provG = ⟨.error (.provider msgG), [], 1, cache⟩
    ∧ geminiCall cache p tempM dtM provM
        = ⟨.ok ("Error generating response: " ++ msgM), 1, cache⟩ := by
  have hloop : groqLoop provG (tempG.getD dtG) 0 3 = (.error (.provider msgG), [], 1) := by
    simp only [groqLoop, hG, hrl]
    rfl
  constructor
  · simp only [groqCall, hc, hloop]
  · simp only [geminiCall, hc, hM]

/-- Witness for C6 at a concrete non-rate-limit provider error. -/
theorem nonRateLimit_error_behaviour_witness :
    groqCall [] "p" none 0 (fun _ _ => .err "boom")
      = ⟨.error (.provider "boom"), [], 1, []⟩
    ∧ geminiCall [] "p" none 0 (fun _ _ => .err "boom")
      = ⟨.ok ("Error generating response: " ++ "boom"), 1, []⟩ :=
  nonRateLimit_error_behaviour [] "p" none none 0 0 "boom" "boom" _ _
    (by decide) rfl (by decide) rfl

/-- Counterexample to C6 as stated: the Gemini gateway does not propagate a
non-rate-limit provider error; at a concrete erroring provider the call
returns an ordinary (`.ok`) fallback string instead of raising. -/
theorem gemini_error_swallowed_counterexample :
    geminiCall [] "p" none 0 (fun _ _ => .err "boom")
      = ⟨.ok "Error generating response: boom", 1, []⟩ := rfl

/-- Claim C9: the relevance score is clamped to `[0, 1]` for every query,
query-word set and knowledge item, and an empty or whitespace-only
knowledge item scores exactly 0. -/
theorem calcScore_bounded (ratio : String → String → ℚ)
    (query knowledge : String) (queryWords : List String) :
    (0 ≤ calcScore ratio query queryWords knowledge
      ∧ calcScore ratio query queryWords knowledge ≤ 1)
    ∧ (pyStrip knowledge = "" → calcScore ratio query queryWords knowledge = 0) := by
  have hz : mkRat 0 1 = (0 : ℚ) := by
    rw [Rat.mkRat_eq_div]; norm_num
  constructor
  · rw [calcScore]
    split
    · rw [hz]; norm_num
    · constructor
      · exact le_min (by norm_num) (le_max_left 0 _)
      · exact min_le_left _ _
  · intro h
    rw [calcScore, if_pos (Or.inr (by rw [h]; rfl))]
    exact hz

/-- Witness for C9 at a whitespace-only knowledge item. -/
theorem calcScore_bounded_witness :
    (0 ≤ calcScore (fun _ _ => mkRat 0 1) "abc" ["abc"] "  "
      ∧ calcScore (fun _ _ => mkRat 0 1) "abc" ["abc"] "  " ≤ 1)
    ∧ calcScore (fun _ _ => mkRat 0 1) "abc" ["abc"] "  " = 0 :=
  ⟨(calcScore_bounded (fun _ _ => mkRat 0 1) "abc" "  " ["abc"]).1,
   (calcScore_bounded (fun _ _ => mkRat 0 1) "abc" "  " ["abc"]).2 (by decide)⟩

/-- Claim C10: `score_relevance` returns exactly one scored entry per input
item (the contents are a permutation of the input), sorted in
non-increasing score order, and `get_top_k` on its output is precisely the
`k`-element prefix, i.e. the `k` highest-scoring items. -/
theorem scoreRelevance_sorted_complete (ratio : String → String → ℚ)
    (query : String) (items : List String) (k : Nat) :
    (scoreRelevance ratio query items).length = items.length
    ∧ ((scoreRelevance ratio query items).map (·.content)).Perm items
    ∧ List.Sorted scoreGe (scoreRelevance ratio query items)
    ∧ getTopK (scoreRelevance ratio query items) k
        = (scoreRelevance ratio query items).take k := by
  have hperm : (scoreRelevance ratio query items).Perm
      (items.map (fun item => ScoredItem.mk item
        (calcScore ratio query ((pySplitWs (pyLower query)).dedup) item) "unknown")) := by
    rw [scoreRelevance]
    exact List.perm_insertionSort scoreGe _
  refine ⟨?_, ?_, ?_, rfl⟩
  · rw [hperm.length_eq, List.length_map]
  · have h2 := hperm.map (·.content)
    rw [List.map_map] at h2
    have hfun : ((fun (x : ScoredItem) => x.content) ∘ (fun item => ScoredItem.mk item
        (calcScore ratio query ((pySplitWs (pyLower query)).dedup) item) "unknown"))
        = fun item => item := rfl
    rw [hfun] at h2
    simpa using h2
  · rw [scoreRelevance]
    exact List.sorted_insertionSort scoreGe _

end CoK

namespace CoK

/-- The wait-time regex parses `"...try again in 1m22.08s..."` (first
occurrence) into 1 minute and 22.08 seconds, whatever follows. -/
theorem parse_1m2208 (msg : String) (rest : List Char)
    (h : afterLit "try again in ".data msg.data = some ("1m22.08s".data ++ rest)) :
    parseWaitFields msg = some (1, qAdd (mkRat 22 1) (mkRat 8 100)) := by
  unfold parseWaitFields
  rw [h]
  rfl

/-- Claim C5: on a provider that keeps raising a rate-limit error whose
message says `try again in 1m22.08s`, each retry waits 82.08 seconds plus
the 10-second safety margin, and after the bound of 3 attempts the call
raises a terminal rate-limit-exceeded error carrying the parsed 82.08-second
wait. -/
theorem groq_rateLimit_retry_exhaustion (msg p : String) (rest : List Char)
    (temperature : Option ℚ) (dt : ℚ)
    (hrl : isRateLimitError msg = true)
    (h : afterLit "try again in ".data msg.data = some ("1m22.08s".data ++ rest)) :
    groqCall [] p temperature dt (fun _ _ => .err msg)
      = ⟨.error (.rateLimitExceeded 3 (some (8208/100 : ℚ))),
         [(8208/100 : ℚ) + 10, (8208/100 : ℚ) + 10], 3, []⟩ := by
  have hp := parse_1m2208 msg rest h
  have hw0 : retryWait msg 0 = (8208/100 : ℚ) + 10 := by
    rw [retryWait, hp]
    simp only [qAdd_eq, Rat.mkRat_eq_div]
    push_cast
    norm_num
  have hw1 : retryWait msg 1 = (8208/100 : ℚ) + 10 := by
    rw [retryWait, hp]
    simp only [qAdd_eq, Rat.mkRat_eq_div]
    push_cast
    norm_num
  have htw : terminalWait msg = some (8208/100 : ℚ) := by
    rw [terminalWait, hp]
    simp only [Option.map, qAdd_eq, Rat.mkRat_eq_div]
    push_cast
    norm_num
  have hloop : groqLoop (fun _ _ => .err msg) (temperature.getD dt) 0 3
      = (.error (.rateLimitExceeded 3 (some (8208/100 : ℚ))),
         [(8208/100 : ℚ) + 10, (8208/100 : ℚ) + 10], 3) := by
    simp [groqLoop, hrl, hw0, hw1, htw]
  simp [groqCall, List.lookup, hloop]

/-- Witness for C5 at a concrete Groq-style rate-limit message. -/
theorem groq_rateLimit_retry_exhaustion_witness :
    groqCall [] "p" none 0
        (fun _ _ => .err "Error code: 429 - Rate limit reached. Please try again in 1m22.08s.")
      = ⟨.error (.rateLimitExceeded 3 (some (8208/100 : ℚ))),
         [(8208/100 : ℚ) + 10, (8208/100 : ℚ) + 10], 3, []⟩ :=
  groq_rateLimit_retry_exhaustion
    "Error code: 429 - Rate limit reached. Please try again in 1m22.08s." "p" ['.']
    none 0 (by decide) (by decide)

/-! ### execute_query sentinels (C7) -/

theorem lookupSource_mem (sources : List (String × Source)) (name : String) (src : Source) :
    lookupSource sources name = some src → (name, src) ∈ sources := by
  induction sources with
  | nil => intro h; simp [lookupSource, List.lookup] at h
  | cons hd tl ih =>
    intro h
    rw [lookupSource, List.lookup] at h
    cases hbeq : (name == hd.1) with
    | true =>
      rw [hbeq] at h
      have hname : name = hd.1 := eq_of_beq hbeq
      have hsrc : hd.2 = src := by
        simpa using h
      have hpair : (name, src) = hd := by
        rw [hname, ← hsrc]
      rw [hpair]
      exact List.mem_cons_self hd tl
    | false =>
      rw [hbeq] at h
      simp only [] at h
      exact List.mem_cons_of_mem hd (ih h)

theorem sparqlGather_all_error (sources : List (String × Source)) (query : String)
    (hall : ∀ ns ∈ sources, ∀ q k, ∃ e, ns.2 q k = Except.error e) :
    ∀ ranked, sparqlGather sources query ranked = [] := by
  intro ranked
  induction ranked with
  | nil => rfl
  | cons name rest ih =>
    rw [sparqlGather]
    cases hls : lookupSource sources name with
    | none => exact ih
    | some src =>
      rcases hall (name, src) (lookupSource_mem sources name src hls) query
        (if name = "wikidata_sparql" then 5 else 3) with ⟨e, he⟩
      have he' : src query (if name = "wikidata_sparql" then 5 else 3) = Except.error e := he
      simp [he', ih]

theorem wikiDdgGather_all_error (sources : List (String × Source)) (query : String)
    (hall : ∀ ns ∈ sources, ∀ q k, ∃ e, ns.2 q k = Except.error e) :
    wikiDdgGather sources query = [] := by
  rw [wikiDdgGather]
  cases hw : lookupSource sources "wikipedia" with
  | none =>
    cases hd : lookupSource sources "duckduckgo" with
    | none => rfl
    | some src =>
      rcases hall ("duckduckgo", src) (lookupSource_mem sources _ src hd) query 3 with ⟨e, he⟩
      have he' : src query 3 = Except.error e := he
      simp [he']
  | some src =>
    rcases hall ("wikipedia", src) (lookupSource_mem sources _ src hw) query 5 with ⟨e, he⟩
    have he' : src query 5 = Except.error e := he
    cases hd : lookupSource sources "duckduckgo" with
    | none => simp [he']
    | some src2 =>
      rcases hall ("duckduckgo", src2) (lookupSource_mem sources _ src2 hd) query 3 with ⟨e2, he2⟩
      have he2' : src2 query 3 = Except.error e2 := he2
      simp [he', he2']

/-- Claim C7: `execute_query` is total (its embedding returns a plain
string, the source's outer catch-all absorbing everything): when no source
yields raw results it returns the sentinel `"No results"`; when raw results
exist but none survive the relevance threshold it returns
`"No results found"`; and when every knowledge source raises, the failures
are absorbed and the no-results sentinel is returned instead of an
exception. -/
theorem executeQuery_no_results_sentinel (ratio : String → String → ℚ)
    (sources : List (String × Source)) (query queryType domain : String) :
    (gatherResults sources query queryType domain = [] →
      executeQuery ratio sources query queryType domain = "No results")
    ∧ (gatherResults sources query queryType domain ≠ [] →
      filterByThreshold (scoreRelevance ratio query (gatherResults sources query queryType domain))
          (thresholdFor queryType) = [] →
      executeQuery ratio sources query queryType domain = "No results found")
    ∧ ((∀ ns ∈ sources, ∀ q k, ∃ e, ns.2 q k = Except.error e) →
      executeQuery ratio sources query queryType domain = "No results") := by
  refine ⟨?_, ?_, ?_⟩
  · intro h
    rw [executeQuery, h]
    rfl
  · intro h1 h2
    rw [executeQuery]
    rw [List.isEmpty_eq_false_iff_exists_mem.mpr
      (by rcases List.exists_mem_of_ne_nil _ h1 with ⟨x, hx⟩; exact ⟨x, hx⟩)]
    simp only [h2, getTopK, List.take, List.map_nil, joinNewline, if_neg]
    rfl
  · intro hall
    have hg : gatherResults sources query queryType domain = [] := by
      rw [gatherResults]
      split
      · exact sparqlGather_all_error sources query hall _
      · exact wikiDdgGather_all_error sources query hall
    rw [executeQuery, hg]
    rfl

/-- Witness for C7: an always-raising Wikipedia source is absorbed into
`"No results"`, and a source returning one irrelevant snippet (scored 0,
below the 0.15 medical threshold) yields `"No results found"`. -/
theorem executeQuery_no_results_sentinel_witness :
    executeQuery cexRatio [("wikipedia", cexSrcFail)] "q" "medical" "medical" = "No results"
    ∧ executeQuery cexRatio [("wikipedia", cexSrcOk)] "zzzz" "medical" "medical"
        = "No results found" :=
  ⟨(executeQuery_no_results_sentinel cexRatio [("wikipedia", cexSrcFail)] "q" "medical" "medical").1
      (by decide),
   (executeQuery_no_results_sentinel cexRatio [("wikipedia", cexSrcOk)] "zzzz" "medical" "medical").2.1
      (by decide) (by decide)⟩

end CoK

namespace CoK

/-! ### Result-dictionary structure of run (C8, C3, C2) -/

theorem earlyDict_lookups (ca : String) (rationales : List String) :
    List.lookup "answer" (earlyDict ca rationales) = some (.str ca)
    ∧ List.lookup "rationales" (earlyDict ca rationales) = some (.list rationales)
    ∧ List.lookup "stage" (earlyDict ca rationales) = some (.str "consensus_validated")
    ∧ List.lookup "confidence" (earlyDict ca rationales) = some (.str "high")
    ∧ List.lookup "models_used" (earlyDict ca rationales) = some (.dict
        [("reasoning", "Llama 3 70B"),
         ("query_generation", "None (early stop)"),
         ("consolidation", "None (early stop)")])
    ∧ List.lookup "corrected_rationales" (earlyDict ca rationales) = none
    ∧ List.lookup "domains" (earlyDict ca rationales) = none
    ∧ List.lookup "initial_rationales" (earlyDict ca rationales) = none :=
  ⟨rfl, rfl, rfl, rfl, rfl, rfl, rfl, rfl⟩

theorem runFull_lookups (ratio : String → String → ℚ) (llm : LLM)
    (sources : List (String × Source)) (question : String)
    (rationales domains : List String) (n : Nat) :
    List.lookup "answer" (runFull ratio llm sources question rationales domains n)
      = some (.str (consolidate llm (runLoop ratio llm sources domains n [] rationales).2
          question (runLoop ratio llm sources domains n [] rationales).1).1)
    ∧ List.lookup "initial_rationales" (runFull ratio llm sources question rationales domains n)
      = some (.list rationales)
    ∧ List.lookup "corrected_rationales" (runFull ratio llm sources question rationales domains n)
      = some (.list (runLoop ratio llm sources domains n [] rationales).1)
    ∧ List.lookup "domains" (runFull ratio llm sources question rationales domains n)
      = some (.list domains)
    ∧ List.lookup "stage" (runFull ratio llm sources question rationales domains n)
      = some (.str "full_pipeline")
    ∧ List.lookup "confidence" (runFull ratio llm sources question rationales domains n)
      = some (.str "medium")
    ∧ List.lookup "models_used" (runFull ratio llm sources question rationales domains n)
      = some (.dict
          [("reasoning", "Llama 3 70B"),
           ("query_generation", "Llama 3 70B"),
           ("consolidation", "Llama 3 70B")])
    ∧ List.lookup "rationales" (runFull ratio llm sources question rationales domains n)
      = none :=
  ⟨rfl, rfl, rfl, rfl, rfl, rfl, rfl, rfl⟩

theorem runDecide_cases (ratio : String → String → ℚ) (llm : LLM)
    (sources : List (String × Source)) (question : String)
    (rationales answers domains : List String) (k : Nat) :
    (∃ ca, runDecide ratio llm sources question rationales answers domains k
        = earlyDict ca rationales)
    ∨ (∃ n, runDecide ratio llm sources question rationales answers domains k
        = runFull ratio llm sources question rationales domains n) := by
  rw [runDecide]
  split
  · dsimp only
    split
    · exact Or.inl ⟨_, rfl⟩
    · exact Or.inr ⟨_, rfl⟩
  · exact Or.inr ⟨_, rfl⟩

/-- Every `run` result is either the early-stop dictionary or the
full-pipeline dictionary. -/
theorem run_cases (ratio : String → String → ℚ) (llm : LLM)
    (sources : List (String × Source)) (question : String) (datasetName : Option String) :
    (∃ ca rationales, run ratio llm sources question datasetName = earlyDict ca rationales)
    ∨ (∃ rationales domains n, run ratio llm sources question datasetName
        = runFull ratio llm sources question rationales domains n) := by
  rcases runDecide_cases ratio llm sources question
      ((List.range (if containsSub "Claim:" question then 3 else 5)).map
        (fun i => llm i (if datasetName = some "fever" then feverReasoningPrompt question
          else reasoningPrompt question) (estimateComplexity question datasetName)))
      (((List.range (if containsSub "Claim:" question then 3 else 5)).map
        (fun i => llm i (if datasetName = some "fever" then feverReasoningPrompt question
          else reasoningPrompt question) (estimateComplexity question datasetName))).map extractAnswer)
      (parseDomains (llm (if containsSub "Claim:" question then 3 else 5)
        (domainIdentificationPrompt question) 0))
      (if containsSub "Claim:" question then 3 else 5) with ⟨ca, h⟩ | ⟨n, h⟩
  · exact Or.inl ⟨ca, _, h⟩
  · exact Or.inr ⟨_, _, n, h⟩

/-- Claim C8 (amended): every `run` result carries `answer`, `stage`,
`confidence` and `models_used`, with exactly two shapes: the early-stop
dictionary (stage `consensus_validated` iff confidence `high`) which also
carries `rationales` but neither `corrected_rationales` nor `domains` nor
`initial_rationales`, and the full-pipeline dictionary (stage
`full_pipeline` iff confidence `medium`) which carries
`initial_rationales`, `corrected_rationales` and `domains` but no
`rationales` key. -/
theorem run_result_shape (ratio : String → String → ℚ) (llm : LLM)
    (sources : List (String × Source)) (question : String) (datasetName : Option String) :
    (∃ a, List.lookup "answer" (run ratio llm sources question datasetName) = some (.str a))
    ∧ (∃ d, List.lookup "models_used" (run ratio llm sources question datasetName) = some (.dict d))
    ∧ ((List.lookup "stage" (run ratio llm sources question datasetName)
          = some (.str "consensus_validated")
        ∧ List.lookup "confidence" (run ratio llm sources question datasetName)
          = some (.str "high")
        ∧ (∃ l, List.lookup "rationales" (run ratio llm sources question datasetName)
            = some (.list l))
        ∧ List.lookup "corrected_rationales" (run ratio llm sources question datasetName) = none
        ∧ List.lookup "domains" (run ratio llm sources question datasetName) = none
        ∧ List.lookup "initial_rationales" (run ratio llm sources question datasetName) = none)
      ∨ (List.lookup "stage" (run ratio llm sources question datasetName)
          = some (.str "full_pipeline")
        ∧ List.lookup "confidence" (run ratio llm sources question datasetName)
          = some (.str "medium")
        ∧ (∃ l, List.lookup "initial_rationales" (run ratio llm sources question datasetName)
            = some (.list l))
        ∧ (∃ l, List.lookup "corrected_rationales" (run ratio llm sources question datasetName)
            = some (.list l))
        ∧ (∃ l, List.lookup "domains" (run ratio llm sources question datasetName)
            = some (.list l))
        ∧ List.lookup "rationales" (run ratio llm sources question datasetName) = none)) := by
  rcases run_cases ratio llm sources question datasetName with ⟨ca, rat, heq⟩ | ⟨rat, doms, n, heq⟩
  · rw [heq]
    rcases earlyDict_lookups ca rat with ⟨h1, h2, h3, h4, h5, h6, h7, h8⟩
    exact ⟨⟨ca, h1⟩, ⟨_, h5⟩, Or.inl ⟨h3, h4, ⟨rat, h2⟩, h6, h7, h8⟩⟩
  · rw [heq]
    rcases runFull_lookups ratio llm sources question rat doms n
      with ⟨h1, h2, h3, h4, h5, h6, h7, h8⟩
    exact ⟨⟨_, h1⟩, ⟨_, h7⟩, Or.inr ⟨h5, h6, ⟨rat, h2⟩, ⟨_, h3⟩, ⟨doms, h4⟩, h8⟩⟩

/-- Counterexample to C8 as stated: a concrete full-pipeline result has no
`rationales` key, and a concrete early-stop result has stage
`consensus_validated` but neither a `domains` nor a `corrected_rationales`
key, so no result carries all seven claimed fields. -/
theorem run_fields_counterexample :
    List.lookup "rationales" (run cexRatio cexLLM [] "Claim: the sky is green." none) = none
    ∧ List.lookup "stage" (run cexRatio cexEarlyLLM [] "q" none)
        = some (.str "consensus_validated")
    ∧ List.lookup "domains" (run cexRatio cexEarlyLLM [] "q" none) = none
    ∧ List.lookup "corrected_rationales" (run cexRatio cexEarlyLLM [] "q" none) = none := by
  decide

/-- Claim C3 (amended): a claim-style question (containing the literal
`Claim:` marker) never takes the early-stop branch: the result always has
stage `full_pipeline` and confidence `medium`.  (The final answer is the
consolidation stage's post-processed output and is not guaranteed to be one
of SUPPORTS / REFUTES / NOT ENOUGH INFO; see the counterexample.) -/
theorem run_claim_style_full_pipeline (ratio : String → String → ℚ) (llm : LLM)
    (sources : List (String × Source)) (question : String) (datasetName : Option String)
    (h : containsSub "Claim:" question = true) :
    List.lookup "stage" (run ratio llm sources question datasetName)
      = some (.str "full_pipeline")
    ∧ List.lookup "confidence" (run ratio llm sources question datasetName)
      = some (.str "medium") := by
  rw [run]
  rw [runDecide, h]
  simp only [Bool.not_true, Bool.false_and, Bool.false_eq_true, if_false, if_true]
  exact ⟨(runFull_lookups _ _ _ _ _ _ _).2.2.2.2.1,
         (runFull_lookups _ _ _ _ _ _ _).2.2.2.2.2.1⟩

/-- Witness for C3 at a concrete claim-style question. -/
theorem run_claim_style_full_pipeline_witness :
    List.lookup "stage" (run cexRatio cexLLM [] "Claim: the sky is green." none)
      = some (.str "full_pipeline")
    ∧ List.lookup "confidence" (run cexRatio cexLLM [] "Claim: the sky is green." none)
      = some (.str "medium") :=
  run_claim_style_full_pipeline cexRatio cexLLM [] "Claim: the sky is green." none (by decide)

/-- Counterexample to C3 as stated: a claim-style question whose
consolidation response is `"hello world"` yields exactly that as the final
answer, which is none of the three verification labels (the
`_format_fever_answer` helper in the source is never invoked). -/
theorem run_claim_label_counterexample :
    List.lookup "stage" (run cexRatio cexLLM [] "Claim: the sky is green." none)
      = some (.str "full_pipeline")
    ∧ List.lookup "answer" (run cexRatio cexLLM [] "Claim: the sky is green." none)
      = some (.str "hello world")
    ∧ "hello world" ≠ "SUPPORTS" ∧ "hello world" ≠ "REFUTES"
    ∧ "hello world" ≠ "NOT ENOUGH INFO" := by
  decide

end CoK

namespace CoK

/-! ### Progressive correction preserves count and order (C2) -/

theorem correctOneRun_some (ratio : String → String → ℚ) (llm : LLM)
    (sources : List (String × Source)) (r ctx : String) :
    ∀ domains n c n1,
      correctOneRun ratio llm sources r ctx n domains = (some c, n1) →
      ∃ m knowledge, knowledge ≠ "" ∧ knowledge ≠ "No results found"
        ∧ (correctRationale llm m r knowledge ctx).1 = c := by
  intro domains
  induction domains with
  | nil =>
    intro n c n1 h
    rw [correctOneRun] at h
    simp at h
  | cons d rest ih =>
    intro n c n1 h
    rw [correctOneRun] at h
    dsimp only at h
    split at h
    next hk =>
      split at h
      next hc =>
        refine ⟨(generateQueryR llm n r d).2.2,
          executeQuery ratio sources (generateQueryR llm n r d).1
            (generateQueryR llm n r d).2.1 d, hk.1, hk.2.1, ?_⟩
        have h1 := congrArg Prod.fst h
        simpa using h1
      next hc =>
        exact ih _ _ _ h
    next hk =>
      exact ih _ _ _ h

theorem runLoop_spec (ratio : String → String → ℚ) (llm : LLM)
    (sources : List (String × Source)) (domains : List String) :
    ∀ rs n acc, ∃ out n2,
      runLoop ratio llm sources domains n acc rs = (acc ++ out, n2)
      ∧ out.length = rs.length
      ∧ ∀ i, i < rs.length →
          out.getD i "" = rs.getD i ""
          ∨ ∃ m knowledge, knowledge ≠ "" ∧ knowledge ≠ "No results found"
              ∧ (correctRationale llm m (rs.getD i "") knowledge
                  (buildContext (acc ++ out.take i))).1 = out.getD i "" := by
  intro rs
  induction rs with
  | nil =>
    intro n acc
    exact ⟨[], n, by simp [runLoop], rfl, fun i hi => absurd hi (by simp)⟩
  | cons r rs' ih =>
    intro n acc
    rcases hco : correctOneRun ratio llm sources r (buildContext acc) n domains with ⟨oc, nn⟩
    cases oc with
    | some c =>
      rcases ih nn (acc ++ [c]) with ⟨out', n2, hrun, hlen, hidx⟩
      refine ⟨c :: out', n2, ?_, by simp [hlen], ?_⟩
      · rw [runLoop]
        rw [hco]
        dsimp only
        rw [hrun]
        simp
      · intro i hi
        cases i with
        | zero =>
          right
          rcases correctOneRun_some ratio llm sources r (buildContext acc) domains n c nn hco
            with ⟨m, knowledge, hk1, hk2, hcr⟩
          exact ⟨m, knowledge, hk1, hk2, by simpa using hcr⟩
        | succ j =>
          have hj : j < rs'.length := Nat.lt_of_succ_lt_succ (by simpa using hi)
          rcases hidx j hj with hl | ⟨m, knowledge, hk1, hk2, hcr⟩
          · left
            simpa using hl
          · right
            refine ⟨m, knowledge, hk1, hk2, ?_⟩
            simpa [List.append_assoc] using hcr
    | none =>
      rcases ih nn (acc ++ [r]) with ⟨out', n2, hrun, hlen, hidx⟩
      refine ⟨r :: out', n2, ?_, by simp [hlen], ?_⟩
      · rw [runLoop]
        rw [hco]
        dsimp only
        rw [hrun]
        simp
      · intro i hi
        cases i with
        | zero =>
          left
          simp
        | succ j =>
          have hj : j < rs'.length := Nat.lt_of_succ_lt_succ (by simpa using hi)
          rcases hidx j hj with hl | ⟨m, knowledge, hk1, hk2, hcr⟩
          · left
            simpa using hl
          · right
            refine ⟨m, knowledge, hk1, hk2, ?_⟩
            simpa [List.append_assoc] using hcr

/-- Claim C2: whenever the pipeline produced a full (corrected) result, the
corrected-rationale list has exactly the length of the original rationale
list, and the entry at each index `i` is either rationale `i` unchanged or
the corrector's output on rationale `i` (given some retrieved knowledge and
the progressive context built from the corrected entries before `i`) —
never a reordering or omission. -/
theorem run_corrected_preserved (ratio : String → String → ℚ) (llm : LLM)
    (sources : List (String × Source)) (question : String) (datasetName : Option String)
    (rs cs : List String)
    (hrs : List.lookup "initial_rationales" (run ratio llm sources question datasetName)
        = some (.list rs))
    (hcs : List.lookup "corrected_rationales" (run ratio llm sources question datasetName)
        = some (.list cs)) :
    cs.length = rs.length
    ∧ ∀ i, i < rs.length →
        cs.getD i "" = rs.getD i ""
        ∨ ∃ m knowledge, knowledge ≠ "" ∧ knowledge ≠ "No results found"
            ∧ (correctRationale llm m (rs.getD i "") knowledge (buildContext (cs.take i))).1
                = cs.getD i "" := by
  rcases run_cases ratio llm sources question datasetName with ⟨ca, rat, heq⟩ | ⟨rat, doms, n, heq⟩
  · rw [heq, (earlyDict_lookups ca rat).2.2.2.2.2.2.2] at hrs
    exact absurd hrs (by simp)
  · rw [heq, (runFull_lookups ratio llm sources question rat doms n).2.1] at hrs
    rw [heq, (runFull_lookups ratio llm sources question rat doms n).2.2.1] at hcs
    have hrat : rat = rs := by
      have h1 := Option.some.inj hrs
      injection h1
    rcases runLoop_spec ratio llm sources doms rat n [] with ⟨out, n2, hrun, hlen, hidx⟩
    have hout : cs = out := by
      have h1 := Option.some.inj hcs
      have h2 : (runLoop ratio llm sources doms n [] rat).1 = out := by
        rw [hrun]
        simp
      rw [h2] at h1
      injection h1 with h3
      exact h3.symm
    subst hrat
    subst hout
    constructor
    · exact hlen
    · intro i hi
      rcases hidx i hi with hl | ⟨m, knowledge, hk1, hk2, hcr⟩
      · exact Or.inl hl
      · exact Or.inr ⟨m, knowledge, hk1, hk2, by simpa using hcr⟩

/-- Witness for C2 at a concrete claim-style run whose three rationales all
pass through unchanged (no retrieved evidence). -/
theorem run_corrected_preserved_witness :
    (["r", "r", "r"] : List String).length = (["r", "r", "r"] : List String).length
    ∧ ∀ i, i < (["r", "r", "r"] : List String).length →
        (["r", "r", "r"] : List String).getD i "" = (["r", "r", "r"] : List String).getD i ""
        ∨ ∃ m knowledge, knowledge ≠ "" ∧ knowledge ≠ "No results found"
            ∧ (correctRationale cexLLM m ((["r", "r", "r"] : List String).getD i "") knowledge
                (buildContext ((["r", "r", "r"] : List String).take i))).1
                = (["r", "r", "r"] : List String).getD i "" :=
  run_corrected_preserved cexRatio cexLLM [] "Claim: the sky is green." none
    ["r", "r", "r"] ["r", "r", "r"] (by decide) (by decide)

end CoK
